import Mathlib

/-!
Verification development for the organization-scoped document-upload server
(`src/server/index.mjs` and the SQL setup files).  The server's two HTTP
handlers are embedded as pure Lean functions: external effects (the identity
provider, the blob store and the metadata store) are passed in as explicit
outcome parameters, and the handler result carries both the HTTP response and
the ordered trace of store calls it issued.
-/

namespace UploadDoc

/-- JavaScript truthiness for optional string-valued fields:
`x || null` collapses `undefined`, `null` and the empty string to `null`.
Used for `req.body.user_id`, `req.body.org_id`, `req.body.description`,
`user_metadata.org_id` and the bucket environment variables. -/
def jsOr (o : Option String) : Option String :=
  match o with
  | none => none
  | some s => if s.isEmpty then none else some s

/-- Decides membership in the character class `[a-zA-Z0-9._-]` of the
sanitization regex at `index.mjs:106`. -/
def isSafeChar (c : Char) : Bool :=
  (('a' ≤ c && c ≤ 'z') || ('A' ≤ c && c ≤ 'Z') || ('0' ≤ c && c ≤ '9')
    || c == '.' || c == '_' || c == '-')

/-- One step of `file.originalname.replace(/[^a-zA-Z0-9._-]/g, '_')`:
a character outside the safe class is replaced by an underscore. -/
def sanitizeChar (c : Char) : Char :=
  if isSafeChar c then c else '_'

/-- `const safeName = file.originalname.replace(/[^a-zA-Z0-9._-]/g, '_')`
(`index.mjs:106`). -/
def safeName (s : String) : String :=
  String.mk (s.data.map sanitizeChar)

/-- `const storagePath = orgId ? `orgs/.../...` : `uploads/...``
(`index.mjs:107`): the scope segment is `orgs/{orgId}` when an organization
identifier is supplied (truthy) and the fixed fallback `uploads` otherwise. -/
def storagePath (orgId : Option String) (docId : String) (originalname : String) : String :=
  match orgId with
  | some o => "orgs/" ++ o ++ "/" ++ docId ++ "_" ++ safeName originalname
  | none => "uploads/" ++ docId ++ "_" ++ safeName originalname

/-- Boolean prefix test on character lists (used to state where a storage key
falls; `a == b` is character equality). -/
def charsPrefix : List Char → List Char → Bool
  | [], _ => true
  | _ :: _, [] => false
  | a :: as, b :: bs => a == b && charsPrefix as bs

/-- Boolean infix (substring) test on character lists, embedding
JavaScript's `String.prototype.includes`. -/
def charsInfix (needle : List Char) : List Char → Bool
  | [] => charsPrefix needle []
  | c :: rest => charsPrefix needle (c :: rest) || charsInfix needle rest

/-- `hay.includes(needle)` on Lean strings. -/
def strIncludes (hay needle : String) : Bool :=
  charsInfix needle.data hay.data

/-- The in-memory file produced by the multipart parser for the `file` field:
`originalname`, `mimetype` and `size` as used by the handler
(`index.mjs:95,106,111,126,129,130`); the raw buffer is left abstract. -/
structure FilePart where
  originalname : String
  mimetype : String
  size : Nat
  deriving Repr, DecidableEq

/-- The parsed upload request: `req.file` plus the optional form fields
`user_id`, `org_id`, `description` (`index.mjs:87,91-93`). -/
structure UploadRequest where
  file : Option FilePart
  user_id : Option String
  org_id : Option String
  description : Option String
  deriving Repr, DecidableEq

/-- A store error object as observed by the handler: its `.message` and the
result of `String(err)` stringification (used when `.message` is falsy). -/
structure StoreError where
  message : String
  stringRep : String
  deriving Repr, DecidableEq

/-- `err.message || String(err)` (`index.mjs:117,142`). -/
def StoreError.text (e : StoreError) : String :=
  if e.message.isEmpty then e.stringRep else e.message

/-- Outcomes of the two external stores for one request: `uploadError` is the
`error` of the blob-store write (`index.mjs:110`), `insertError` the `error`
of the metadata insert (`index.mjs:136`); `none` means success. -/
structure StoreBehavior where
  uploadError : Option StoreError
  insertError : Option StoreError
  deriving Repr, DecidableEq

/-- The `documentRow` object built at `index.mjs:122-133`, field names and
order as in the source.  Note the timestamp field is named `uploaded_at` and
carries a client-side `new Date().toISOString()` value. -/
structure DocumentRow where
  document_id : String
  user_id : Option String
  org_id : Option String
  filename : String
  storage_path : String
  bucket : String
  content_type : String
  size_bytes : Nat
  description : Option String
  uploaded_at : String
  deriving Repr, DecidableEq

/-- The JSON keys of the `documentRow` object (`index.mjs:122-133`), in
source order. -/
def documentRowFields : List String :=
  ["document_id", "user_id", "org_id", "filename", "storage_path", "bucket",
   "content_type", "size_bytes", "description", "uploaded_at"]

/-- Columns of `public."Organization_Documents"` as created by the repository
setup SQL (src/unnamed/part_001). -/
def organizationDocumentsColumns : List String :=
  ["document_id", "user_id", "org_id", "filename", "storage_path", "bucket",
   "content_type", "size_bytes", "description", "created_at"]

/-- Columns of the other observed variant `public."OrganizationDocuments"`
(src/unnamed/part_000); same column set. -/
def organizationDocumentsAltColumns : List String :=
  ["document_id", "user_id", "org_id", "filename", "storage_path", "bucket",
   "content_type", "size_bytes", "description", "created_at"]

/-- One outward call issued by the upload handler, in program order:
the blob-store write `storage.from(bucket).upload(path, buffer, {contentType})`
or the metadata insert `from('Organization_Documents').insert([row])`. -/
inductive StoreCall where
  | storageUpload (bucket path contentType : String) (upsert : Bool)
  | metadataInsert (table : String) (row : DocumentRow)
  deriving Repr, DecidableEq

/-- Whether a store call is the metadata insert (phase 2). -/
def StoreCall.isInsert : StoreCall → Bool
  | .metadataInsert _ _ => true
  | _ => false

/-- JSON body of an upload response: an error object `{error}` or the success
payload `{success:true, document_id, storage_path, bucket}` (`index.mjs:147`). -/
inductive UploadBody where
  | err (msg : String)
  | ok (document_id storage_path bucket : String)
  deriving Repr, DecidableEq

/-- HTTP status plus JSON body. -/
structure UploadResponse where
  status : Nat
  body : UploadBody
  deriving Repr, DecidableEq

/-- Process-wide configuration fixed at startup: whether `SUPABASE_URL` and
`SUPABASE_KEY` resolved to non-empty values (`index.mjs:23-24,98`), and the
two bucket environment variables (`index.mjs:103`). -/
structure ServerConfig where
  supabaseConfigured : Bool
  uploadBucketEnv : Option String
  bucketEnv : Option String
  deriving Repr, DecidableEq

/-- `process.env.SUPABASE_UPLOAD_BUCKET || process.env.SUPABASE_BUCKET ||
'organization-documents'` (`index.mjs:103`). -/
def bucketName (cfg : ServerConfig) : String :=
  match jsOr cfg.uploadBucketEnv with
  | some b => b
  | none =>
    match jsOr cfg.bucketEnv with
    | some b => b
    | none => "organization-documents"

/-- The operator-actionable message emitted when the metadata table is
missing (`index.mjs:141`). -/
def tableMissingMsg : String :=
  "Database table Organization_Documents not found in upload project. Run upload_document/setup/create_document_manager_table.sql in your upload Supabase project SQL editor."

/-- The `POST /api/organizations/me/documents` handler body
(`index.mjs:83-152`) as a pure function.  `docId` is the value of `uuidv4()`
(generated once, before the storage write) and `now` the value of
`new Date().toISOString()`; the two store outcomes are supplied in `st`.
Returns the HTTP response and the ordered list of store calls issued. -/
def uploadHandler (cfg : ServerConfig) (docId now : String)
    (req : UploadRequest) (st : StoreBehavior) : UploadResponse × List StoreCall :=
  match req.file with
  | none => (⟨400, .err "file is required"⟩, [])
  | some file =>
    let userId := jsOr req.user_id
    let orgId := jsOr req.org_id
    let description := jsOr req.description
    if !cfg.supabaseConfigured then
      (⟨500, .err "server not configured for uploads"⟩, [])
    else
      let bucket := bucketName cfg
      let path := storagePath orgId docId file.originalname
      let phase1 := [StoreCall.storageUpload bucket path file.mimetype false]
      match st.uploadError with
      | some e => (⟨500, .err e.text⟩, phase1)
      | none =>
        let row : DocumentRow :=
          { document_id := docId
            user_id := userId
            org_id := orgId
            filename := file.originalname
            storage_path := path
            bucket := bucket
            content_type := file.mimetype
            size_bytes := file.size
            description := description
            uploaded_at := now }
        let trace := phase1 ++ [StoreCall.metadataInsert "Organization_Documents" row]
        match st.insertError with
        | some e =>
          let msg :=
            if !e.message.isEmpty && strIncludes e.message "Could not find the table" then
              tableMissingMsg
            else
              "uploaded but failed to persist metadata: " ++ e.text
          (⟨500, .err msg⟩, trace)
        | none => (⟨200, .ok docId path bucket⟩, trace)

/-- `Number(process.env.MAX_FILE_SIZE_BYTES || 50*1024*1024)`
(`index.mjs:21`): the configured maximum file size in bytes, defaulting to
50 MiB.  The environment value is modelled as an already-parsed number. -/
def maxFileSizeBytes (envLimit : Option Nat) : Nat :=
  match envLimit with
  | some n => n
  | none => 50 * 1024 * 1024

/-- Outcome of one request through the multipart middleware and the handler:
either the handler ran, or the middleware aborted with an error code that
reached the framework default error handler with the given HTTP status. -/
inductive PipelineResult where
  | handlerRun (resp : UploadResponse) (calls : List StoreCall)
  | middlewareError (errCode : String) (status : Nat)
  deriving Repr, DecidableEq

/-- Modelled from the spec: the multipart input layer is the external
`multer` middleware configured at `index.mjs:21` with
`limits: \x7b fileSize \x7d`; per its documented contract it stops streaming
and raises a `MulterError` with code `LIMIT_FILE_SIZE` as soon as the file
part exceeds the limit, before the whole body is buffered and before the
route handler runs.  The repository installs no error-handling middleware,
so a middleware error falls through to Express's default error handler,
whose status is `err.status || err.statusCode || 500`; `MulterError`
carries neither field, so the response status is 500. -/
def requestPipeline (envLimit : Option Nat) (cfg : ServerConfig) (docId now : String)
    (req : UploadRequest) (st : StoreBehavior) : PipelineResult :=
  match req.file with
  | some file =>
    if file.size > maxFileSizeBytes envLimit then
      .middlewareError "LIMIT_FILE_SIZE" 500
    else
      let r := uploadHandler cfg docId now req st
      .handlerRun r.1 r.2
  | none =>
    let r := uploadHandler cfg docId now req st
    .handlerRun r.1 r.2

/-- Store calls issued by a pipeline outcome: none when the middleware
aborted the request. -/
def PipelineResult.calls : PipelineResult → List StoreCall
  | .handlerRun _ cs => cs
  | .middlewareError _ _ => []

/-- The authenticated user as seen by the sign-in handler:
`user.id`, `user.email` and `user.user_metadata.org_id` (`index.mjs:57-60`). -/
structure AuthUser where
  id : String
  email : String
  metaOrgId : Option String
  deriving Repr, DecidableEq

/-- Outcome of `supabase.auth.signInWithPassword` (`index.mjs:51`):
an error or a signed-in user. -/
inductive AuthResult where
  | failure (e : StoreError)
  | success (user : AuthUser)
  deriving Repr, DecidableEq

/-- Outcome of the `UserProfiles` point lookup with `.maybeSingle()`
(`index.mjs:63`): a query error, no matching row (`data = null`), or one
row whose `org_id` may itself be null. -/
inductive ProfileResult where
  | failure (e : StoreError)
  | noRow
  | row (org_id : Option String)
  deriving Repr, DecidableEq

/-- Descriptor of the profile lookup the handler issues:
`from('UserProfiles').select('org_id').eq('id', user.id).limit(1)`
(`index.mjs:63`). -/
structure ProfileQuery where
  table : String
  selectCols : List String
  eqCol : String
  eqVal : String
  limit : Nat
  deriving Repr, DecidableEq

/-- JSON body of a sign-in response: `{error}` or
`{success:true, user:{id,email}, org_id}` (`index.mjs:74`). -/
inductive SignInBody where
  | err (msg : String)
  | ok (userId userEmail : String) (org_id : Option String)
  deriving Repr, DecidableEq

/-- Sign-in result: HTTP status, JSON body, and the `UserProfiles` lookup
the handler performed, if any. -/
structure SignInOutcome where
  status : Nat
  body : SignInBody
  profileQuery : Option ProfileQuery
  deriving Repr, DecidableEq

/-- Organization identifier extracted from the `UserProfiles` lookup result
by the code at `index.mjs:64-69`: a query error is only logged (the
identifier stays unset), and a row contributes its `org_id` only when that
value is truthy (`profile && profile.org_id`). -/
def profileOrg (prof : ProfileResult) : Option String :=
  match prof with
  | .failure _ => none
  | .noRow => none
  | .row o => jsOr o

/-- The `POST /api/signin` handler body (`index.mjs:44-79`) as a pure
function over the request fields and the outcomes of the identity provider
and of the `UserProfiles` lookup. -/
def signinHandler (email password : Option String)
    (auth : AuthResult) (prof : ProfileResult) : SignInOutcome :=
  match jsOr email, jsOr password with
  | none, _ => ⟨400, .err "email and password required", none⟩
  | some _, none => ⟨400, .err "email and password required", none⟩
  | some _, some _ =>
    match auth with
    | .failure e => ⟨401, .err e.text, none⟩
    | .success user =>
      match jsOr user.metaOrgId with
      | some o => ⟨200, .ok user.id user.email (some o), none⟩
      | none =>
        let q : ProfileQuery := ⟨"UserProfiles", ["org_id"], "id", user.id, 1⟩
        ⟨200, .ok user.id user.email (profileOrg prof), some q⟩

/-! ### Helper lemmas -/

theorem isSafeChar_sanitizeChar (c : Char) : isSafeChar (sanitizeChar c) = true := by
  by_cases h : isSafeChar c = true
  · simp [sanitizeChar, h]
  · simp only [sanitizeChar, h, if_false, Bool.not_eq_true] at *
    simp [h]
    decide

theorem sanitizeChar_idem (c : Char) : sanitizeChar (sanitizeChar c) = sanitizeChar c := by
  by_cases h : isSafeChar c = true
  · simp [sanitizeChar, h]
  · have h2 : sanitizeChar c = '_' := by simp [sanitizeChar, h]
    rw [h2]
    decide

/-! ### Claim theorems -/

/-- C3: a multipart submission with no file part is answered with
HTTP 400 and error "file is required", and no store call is made. -/
theorem no_file_returns_400_and_no_store_calls
    (cfg : ServerConfig) (docId now : String) (req : UploadRequest)
    (st : StoreBehavior) (h : req.file = none) :
    uploadHandler cfg docId now req st = (⟨400, .err "file is required"⟩, []) := by
  simp [uploadHandler, h]

/-- Witness for C3 at a concrete fileless request. -/
theorem no_file_returns_400_and_no_store_calls_witness :
    uploadHandler ⟨true, none, none⟩ "doc-1" "2024-01-01T00:00:00.000Z"
      ⟨none, some "user-1", some "org-1", none⟩ ⟨none, none⟩
      = (⟨400, .err "file is required"⟩, []) :=
  no_file_returns_400_and_no_store_calls _ _ _ _ _ rfl

/-- C4: every character of a sanitized filename lies in `[A-Za-z0-9._-]`,
sanitization is idempotent, and every derived storage key ends in
`_` followed by exactly the sanitized filename (its filename segment). -/
theorem safeName_safe_and_idempotent (s : String) :
    (∀ c ∈ (safeName s).data, isSafeChar c = true) ∧
    safeName (safeName s) = safeName s ∧
    (∀ (orgId : Option String) (docId : String),
      ∃ p : String, storagePath orgId docId s = p ++ "_" ++ safeName s) := by
  refine ⟨?_, ?_, ?_⟩
  · intro c hc
    simp only [safeName] at hc
    rcases List.mem_map.mp hc with ⟨a, _, rfl⟩
    exact isSafeChar_sanitizeChar a
  · simp only [safeName, List.map_map]
    congr 1
    apply List.map_congr_left
    intro a _
    exact sanitizeChar_idem a
  · intro orgId docId
    cases orgId with
    | some o => exact ⟨"orgs/" ++ o ++ "/" ++ docId, rfl⟩
    | none => exact ⟨"uploads/" ++ docId, rfl⟩

/-- C1: if the blob-store write (phase 1) fails, the handler answers
HTTP 500 with the blob store's error message, its trace is exactly the one
storage call (the metadata insert is never attempted), and for any store
behavior whatsoever a metadata insert only ever appears in the trace when
the blob write succeeded. -/
theorem uploadError_aborts_without_metadata_insert
    (cfg : ServerConfig) (docId now : String) (req : UploadRequest)
    (file : FilePart) (st : StoreBehavior) (e : StoreError)
    (hfile : req.file = some file)
    (hcfg : cfg.supabaseConfigured = true)
    (herr : st.uploadError = some e) :
    (uploadHandler cfg docId now req st).1 = ⟨500, .err e.text⟩ ∧
    (uploadHandler cfg docId now req st).2 =
      [StoreCall.storageUpload (bucketName cfg)
        (storagePath (jsOr req.org_id) docId file.originalname) file.mimetype false] ∧
    (∀ c ∈ (uploadHandler cfg docId now req st).2, c.isInsert = false) ∧
    (∀ st2 : StoreBehavior,
      (∃ c ∈ (uploadHandler cfg docId now req st2).2, c.isInsert = true) →
      st2.uploadError = none) := by
  refine ⟨?_, ?_, ?_, ?_⟩
  · simp [uploadHandler, hfile, hcfg, herr]
  · simp [uploadHandler, hfile, hcfg, herr]
  · simp [uploadHandler, hfile, hcfg, herr, StoreCall.isInsert]
  · intro st2 h
    rcases h with ⟨c, hc, hins⟩
    cases h2 : st2.uploadError with
    | none => rfl
    | some e2 =>
      simp [uploadHandler, hfile, hcfg, h2] at hc
      rw [hc] at hins
      simp [StoreCall.isInsert] at hins

/-- Witness for C1 at a concrete failed blob write. -/
theorem uploadError_aborts_without_metadata_insert_witness :
    (uploadHandler ⟨true, none, none⟩ "doc-1" "T"
      ⟨some ⟨"a.pdf", "application/pdf", 3⟩, none, some "org-1", none⟩
      ⟨some ⟨"bucket unavailable", "E"⟩, none⟩).1 = ⟨500, .err "bucket unavailable"⟩ ∧
    (uploadHandler ⟨true, none, none⟩ "doc-1" "T"
      ⟨some ⟨"a.pdf", "application/pdf", 3⟩, none, some "org-1", none⟩
      ⟨some ⟨"bucket unavailable", "E"⟩, none⟩).2 =
      [StoreCall.storageUpload "organization-documents" "orgs/org-1/doc-1_a.pdf"
        "application/pdf" false] := by
  have h := uploadError_aborts_without_metadata_insert ⟨true, none, none⟩ "doc-1" "T"
    ⟨some ⟨"a.pdf", "application/pdf", 3⟩, none, some "org-1", none⟩
    ⟨"a.pdf", "application/pdf", 3⟩
    ⟨some ⟨"bucket unavailable", "E"⟩, none⟩
    ⟨"bucket unavailable", "E"⟩ rfl rfl rfl
  exact ⟨h.1.trans (by decide), h.2.1.trans (by decide)⟩

/-- C2: on a successful upload the response is
`{success:true, document_id, storage_path, bucket}` where `document_id` is
the one identifier also embedded in the derived storage key, the inserted
row carries that same identifier, and the row's `storage_path` is exactly
the key passed to the blob write. -/
theorem success_document_id_consistent
    (cfg : ServerConfig) (docId now : String) (req : UploadRequest) (file : FilePart)
    (st : StoreBehavior)
    (hfile : req.file = some file)
    (hcfg : cfg.supabaseConfigured = true)
    (hup : st.uploadError = none)
    (hins : st.insertError = none) :
    (uploadHandler cfg docId now req st).1 =
      ⟨200, .ok docId (storagePath (jsOr req.org_id) docId file.originalname) (bucketName cfg)⟩ ∧
    (∃ row : DocumentRow,
      (uploadHandler cfg docId now req st).2 =
        [StoreCall.storageUpload (bucketName cfg)
          (storagePath (jsOr req.org_id) docId file.originalname) file.mimetype false,
         StoreCall.metadataInsert "Organization_Documents" row] ∧
      row.document_id = docId ∧
      row.storage_path = storagePath (jsOr req.org_id) docId file.originalname) ∧
    (∃ scope : String,
      storagePath (jsOr req.org_id) docId file.originalname =
        scope ++ "/" ++ docId ++ "_" ++ safeName file.originalname) := by
  refine ⟨?_, ?_, ?_⟩
  · simp [uploadHandler, hfile, hcfg, hup, hins]
  · refine ⟨⟨docId, jsOr req.user_id, jsOr req.org_id, file.originalname,
      storagePath (jsOr req.org_id) docId file.originalname, bucketName cfg,
      file.mimetype, file.size, jsOr req.description, now⟩, ?_, rfl, rfl⟩
    simp [uploadHandler, hfile, hcfg, hup, hins]
  · cases horg : jsOr req.org_id with
    | some o => exact ⟨"orgs/" ++ o, by simp [storagePath]⟩
    | none => exact ⟨"uploads", by simp [storagePath]⟩

/-- Witness for C2 at a concrete successful upload. -/
theorem success_document_id_consistent_witness :
    (uploadHandler ⟨true, none, none⟩ "doc-1" "T"
      ⟨some ⟨"a.pdf", "application/pdf", 3⟩, some "user-1", some "org-1", some "note"⟩
      ⟨none, none⟩).1 =
      ⟨200, .ok "doc-1" "orgs/org-1/doc-1_a.pdf" "organization-documents"⟩ := by
  have h := success_document_id_consistent ⟨true, none, none⟩ "doc-1" "T"
    ⟨some ⟨"a.pdf", "application/pdf", 3⟩, some "user-1", some "org-1", some "note"⟩
    ⟨"a.pdf", "application/pdf", 3⟩ ⟨none, none⟩ rfl rfl rfl rfl
  exact h.1.trans (by decide)

/-- C5: with no organization identifier the storage key falls under the
fixed `uploads/` fallback segment and not under `orgs/`; with org `org-1`
and file `My Report (final).pdf` the key is
`orgs/org-1/{docId}_My_Report__final_.pdf` and the handler responds
`{success:true, document_id, storage_path, bucket:"organization-documents"}`
with the default bucket. -/
theorem fallback_scope_and_concrete_scenario :
    (∀ docId name : String,
      storagePath none docId name = "uploads/" ++ docId ++ "_" ++ safeName name ∧
      charsPrefix "orgs/".data (storagePath none docId name).data = false) ∧
    (∀ docId : String,
      storagePath (some "org-1") docId "My Report (final).pdf" =
        "orgs/org-1/" ++ docId ++ "_My_Report__final_.pdf") ∧
    (∀ docId : String,
      (uploadHandler ⟨true, none, none⟩ docId "2024-01-01T00:00:00.000Z"
        ⟨some ⟨"My Report (final).pdf", "application/pdf", 1234⟩, some "user-1", some "org-1", none⟩
        ⟨none, none⟩).1 =
      ⟨200, .ok docId ("orgs/org-1/" ++ docId ++ "_My_Report__final_.pdf")
        "organization-documents"⟩) := by
  refine ⟨?_, ?_, ?_⟩
  · intro docId name
    constructor
    · rfl
    · show charsPrefix "orgs/".data (("uploads/" ++ docId ++ "_" ++ safeName name).data) = false
      have h : ("uploads/" ++ docId ++ "_" ++ safeName name).data
          = 'u' :: ("ploads/".data ++ docId.data ++ "_".data ++ (safeName name).data) := by
        simp [String.data_append]
      rw [h]
      show (('o' == 'u') && _) = false
      rfl
  · intro docId
    show ("orgs/" ++ "org-1" ++ "/" ++ docId ++ "_" ++ safeName "My Report (final).pdf")
        = "orgs/org-1/" ++ docId ++ "_My_Report__final_.pdf"
    simp only [String.append_assoc]
    rfl
  · intro docId
    show (⟨200, .ok docId
        ("orgs/" ++ "org-1" ++ "/" ++ docId ++ "_" ++ safeName "My Report (final).pdf")
        "organization-documents"⟩ : UploadResponse) = _
    simp only [String.append_assoc]
    rfl

/-- C7: on a metadata-insert (phase 2) failure the handler answers HTTP
500, and the error text distinguishes the table-missing case (the
operator-actionable provisioning message, replacing the raw store message)
from every other insertion error (reported as
`uploaded but failed to persist metadata: ` plus the store's message). -/
theorem insert_failure_messages_distinguished
    (cfg : ServerConfig) (docId now : String) (req : UploadRequest) (file : FilePart)
    (st : StoreBehavior) (e : StoreError)
    (hfile : req.file = some file)
    (hcfg : cfg.supabaseConfigured = true)
    (hup : st.uploadError = none)
    (hins : st.insertError = some e) :
    (uploadHandler cfg docId now req st).1.status = 500 ∧
    (e.message.isEmpty = false → strIncludes e.message "Could not find the table" = true →
      (uploadHandler cfg docId now req st).1.body = .err tableMissingMsg) ∧
    (e.message.isEmpty = true ∨ strIncludes e.message "Could not find the table" = false →
      (uploadHandler cfg docId now req st).1.body =
        .err ("uploaded but failed to persist metadata: " ++ e.text)) := by
  refine ⟨?_, ?_, ?_⟩
  · simp [uploadHandler, hfile, hcfg, hup, hins]
  · intro h1 h2
    simp [uploadHandler, hfile, hcfg, hup, hins, h1, h2]
  · intro h
    rcases h with h | h
    · simp [uploadHandler, hfile, hcfg, hup, hins, h]
    · simp [uploadHandler, hfile, hcfg, hup, hins, h]

/-- Witness for C7: a table-missing insert error yields the
operator-actionable message, any other insert error the generic one. -/
theorem insert_failure_messages_distinguished_witness :
    (uploadHandler ⟨true, none, none⟩ "doc-1" "T"
      ⟨some ⟨"a.pdf", "application/pdf", 3⟩, none, none, none⟩
      ⟨none, some ⟨"Could not find the table Organization_Documents", "E"⟩⟩).1.body
      = .err tableMissingMsg ∧
    (uploadHandler ⟨true, none, none⟩ "doc-2" "T"
      ⟨some ⟨"a.pdf", "application/pdf", 3⟩, none, none, none⟩
      ⟨none, some ⟨"duplicate key", "E"⟩⟩).1.body
      = .err ("uploaded but failed to persist metadata: "
          ++ StoreError.text ⟨"duplicate key", "E"⟩) :=
  ⟨(insert_failure_messages_distinguished ⟨true, none, none⟩ "doc-1" "T"
      ⟨some ⟨"a.pdf", "application/pdf", 3⟩, none, none, none⟩
      ⟨"a.pdf", "application/pdf", 3⟩
      ⟨none, some ⟨"Could not find the table Organization_Documents", "E"⟩⟩
      ⟨"Could not find the table Organization_Documents", "E"⟩
      rfl rfl rfl rfl).2.1 rfl (by decide),
   (insert_failure_messages_distinguished ⟨true, none, none⟩ "doc-2" "T"
      ⟨some ⟨"a.pdf", "application/pdf", 3⟩, none, none, none⟩
      ⟨"a.pdf", "application/pdf", 3⟩
      ⟨none, some ⟨"duplicate key", "E"⟩⟩
      ⟨"duplicate key", "E"⟩
      rfl rfl rfl rfl).2.2 (Or.inr (by decide))⟩

/-- C8: after a successful sign-in the handler prefers the org identifier
in the user's profile claims (and then performs no lookup); if that is
absent it issues exactly the single point lookup
`UserProfiles.select(org_id).eq(id, user.id).limit(1)`; and if that lookup
also yields nothing the sign-in still answers 200 with
`{success:true, user, org_id:null}`. -/
theorem signin_org_resolution
    (email password : Option String) (u : AuthUser) (prof : ProfileResult)
    (he : (jsOr email).isSome = true)
    (hp : (jsOr password).isSome = true) :
    (∀ o : String, jsOr u.metaOrgId = some o →
      signinHandler email password (.success u) prof =
        ⟨200, .ok u.id u.email (some o), none⟩) ∧
    (jsOr u.metaOrgId = none →
      signinHandler email password (.success u) prof =
        ⟨200, .ok u.id u.email (profileOrg prof),
          some ⟨"UserProfiles", ["org_id"], "id", u.id, 1⟩⟩) ∧
    (jsOr u.metaOrgId = none → profileOrg prof = none →
      (signinHandler email password (.success u) prof).status = 200 ∧
      (signinHandler email password (.success u) prof).body = .ok u.id u.email none) := by
  rcases h1 : jsOr email with _ | e0
  · rw [h1] at he; simp at he
  rcases h2 : jsOr password with _ | p0
  · rw [h2] at hp; simp at hp
  refine ⟨?_, ?_, ?_⟩
  · intro o ho
    simp [signinHandler, h1, h2, ho]
  · intro ho
    simp [signinHandler, h1, h2, ho]
  · intro ho hprof
    simp [signinHandler, h1, h2, ho, hprof]

/-- Witness for C8: valid credentials, no org claim, no matching profile
row — sign-in succeeds with `org_id = null` after the single lookup. -/
theorem signin_org_resolution_witness :
    signinHandler (some "a@b.c") (some "pw")
      (.success ⟨"user-1", "a@b.c", none⟩) .noRow =
      ⟨200, .ok "user-1" "a@b.c" none, some ⟨"UserProfiles", ["org_id"], "id", "user-1", 1⟩⟩ :=
  (signin_org_resolution (some "a@b.c") (some "pw") ⟨"user-1", "a@b.c", none⟩ .noRow
    rfl rfl).2.1 rfl

/-- C6: a file one byte over the default 50 MiB bound is rejected by the
multipart layer before the handler and before any store call, but the
middleware error reaches the framework default error handler and the
response status is 500, not a 4xx. -/
theorem oversize_rejected_before_stores_but_status_500 :
    requestPipeline none ⟨true, none, none⟩ "doc-1" "T"
      ⟨some ⟨"big.bin", "application/octet-stream", 52428801⟩, none, none, none⟩
      ⟨none, none⟩ = .middlewareError "LIMIT_FILE_SIZE" 500 ∧
    (requestPipeline none ⟨true, none, none⟩ "doc-1" "T"
      ⟨some ⟨"big.bin", "application/octet-stream", 52428801⟩, none, none, none⟩
      ⟨none, none⟩).calls = [] ∧
    maxFileSizeBytes none = 50 * 1024 * 1024 ∧
    ¬(400 ≤ 500 ∧ 500 < 500) := by
  refine ⟨by decide, by decide, rfl, by decide⟩

/-- C9: the `documentRow` the handler inserts carries an `uploaded_at`
field with the client-side timestamp, while both repository table schemas
define `created_at` (server default) and no `uploaded_at` column, so the
inserted row does not match the persisted schema. -/
theorem documentRow_schema_mismatch :
    "uploaded_at" ∈ documentRowFields ∧
    "uploaded_at" ∉ organizationDocumentsColumns ∧
    "uploaded_at" ∉ organizationDocumentsAltColumns ∧
    "created_at" ∈ organizationDocumentsColumns ∧
    "created_at" ∉ documentRowFields ∧
    (∃ row : DocumentRow,
      (uploadHandler ⟨true, none, none⟩ "doc-1" "2024-01-01T00:00:00.000Z"
        ⟨some ⟨"a.pdf", "application/pdf", 3⟩, none, none, none⟩ ⟨none, none⟩).2 =
        [StoreCall.storageUpload "organization-documents" "uploads/doc-1_a.pdf"
          "application/pdf" false,
         StoreCall.metadataInsert "Organization_Documents" row] ∧
      row.uploaded_at = "2024-01-01T00:00:00.000Z") := by
  refine ⟨by decide, by decide, by decide, by decide, by decide, ?_⟩
  exact ⟨⟨"doc-1", none, none, "a.pdf", "uploads/doc-1_a.pdf", "organization-documents",
    "application/pdf", 3, none, "2024-01-01T00:00:00.000Z"⟩, by decide, rfl⟩

/-- C10: the supplied organization identifier is embedded verbatim into the
`orgs/{orgId}` scope segment with no sanitization, so an org identifier
containing `/` or `..` puts those characters into the derived storage key
(concretely, org `x/../y` yields a key containing `/../`). -/
theorem orgId_embedded_verbatim_path_traversal :
    (∀ (o docId name : String),
      storagePath (some o) docId name =
        "orgs/" ++ o ++ "/" ++ docId ++ "_" ++ safeName name) ∧
    storagePath (some "x/../y") "d" "r.pdf" = "orgs/x/../y/d_r.pdf" ∧
    strIncludes (storagePath (some "x/../y") "d" "r.pdf") "/../" = true ∧
    isSafeChar '/' = false := by
  refine ⟨fun o docId name => rfl, rfl, by decide, by decide⟩

end UploadDoc
